import Mathlib

/-
Verification of the database-access layer of the Foto-Hosting project
(`db.py`, `admin_db.py`, `db_pool.py`) against its specification.

The Python functions are shallowly embedded as Lean functions.  SQL
statements issued by the code are embedded in two layers: a syntactic
layer (the condition fragments and bound-parameter lists the Python code
builds, mirrored constructor by constructor) and a semantic layer (the
meaning of each fragment on a row, following standard SQL semantics:
NULL comparisons are false, LIKE with a pattern enclosed in two percent
wildcards is a substring test).  Timestamps are modelled as integers
counting seconds; one day is 86400 seconds.

String manipulation from the source (split on comma, strip, startswith,
lower) is implemented over `List Char` by structural recursion so that
every definition reduces in the kernel.
-/

/-! ## String utilities (Python str.split, str.strip, str.startswith, str.lower) -/

/-- Python `s.split(',')` on a list of characters: splits at every comma,
keeping empty parts (`"".split(',') == ['']`). -/
def splitCommaAux : List Char → List Char → List (List Char)
  | [], acc => [acc.reverse]
  | c :: cs, acc =>
    if c == ',' then acc.reverse :: splitCommaAux cs []
    else splitCommaAux cs (c :: acc)

def splitComma (s : List Char) : List (List Char) := splitCommaAux s []

/-- Python `s.strip()`: drop whitespace from both ends. -/
def stripChars (s : List Char) : List Char :=
  ((s.dropWhile Char.isWhitespace).reverse.dropWhile Char.isWhitespace).reverse

/-- Python `s.startswith(p)`. -/
def startsL : List Char → List Char → Bool
  | [], _ => true
  | _ :: _, [] => false
  | p :: ps, c :: cs => p == c && startsL ps cs

/-- Substring test: `hasSub p s` holds when `p` occurs contiguously in `s`.
This is the meaning of SQL `LIKE` with the pattern `p` enclosed in two
`%` wildcards (the patterns used by the source contain no other wildcard
characters). -/
def hasSub (p : List Char) : List Char → Bool
  | [] => p.isEmpty
  | c :: cs => startsL p (c :: cs) || hasSub p cs

/-- Python `s.lower()` (over the ASCII range used by the source patterns). -/
def lowerL (s : List Char) : List Char := s.map Char.toLower

/-- Python truthiness of an optional string argument (`if s:`):
`None` and the empty string are falsy. -/
def truthyStr : Option String → Bool
  | none => false
  | some s => !(s.toList.isEmpty)

/-! ## Statistics rows and the dynamic filter builder
(`admin_db.py`, `get_statistics_with_filters` lines 231-299 and
`get_statistics_count` lines 302-358; both build the same condition list). -/

/-- A row of the `statistics` table (`db.py`, `create_table_statistics`).
`timestamp` is seconds; nullable columns are `Option`. -/
structure StatRow where
  action_type : String
  user_email : Option String
  file_id : Option Int
  ip_address : Option String
  user_agent : Option String
  additional_info : Option String
  timestamp : Int
deriving DecidableEq, Repr

/-- One entry of the `conditions` list built by the source, together with
the bound parameters it contributes to `params`:
* `actionEq v`   — `"action_type = %s"`, params `[v]`;
* `userIsNull`   — `"user_email IS NULL"`, no params;
* `activeUsers`  — the compound fragment
  `"user_email IS NOT NULL AND user_email NOT LIKE ... AND LOWER(user_email) NOT LIKE ..."`
  with the two literal patterns percent-example.com-percent and
  percent-admin-percent, no params;
* `userIn vs`    — `"user_email IN (%s,...,%s)"` with `vs.length`
  placeholders, params `vs`;
* `userEq v`     — `"user_email = %s"`, params `[v]`. -/
inductive SqlCond where
  | actionEq (v : String)
  | userIsNull
  | activeUsers
  | userIn (vs : List String)
  | userEq (v : String)
deriving DecidableEq, Repr

/-- Python `[u.strip() for u in user_email[12:].split(',') if u.strip()]`
(`admin_db.py` lines 263 and 336): drop the 12-character
`CUSTOM_LIST:` marker, split on commas, strip each entry, discard the
entries that are empty after stripping. -/
def parseCustomList (u : String) : List String :=
  (((splitComma (u.toList.drop 12)).map stripChars).filter
    (fun l => !l.isEmpty)).map List.asString

/-- The condition list built by `get_statistics_with_filters` (lines
249-276) and identically by `get_statistics_count` (lines 323-343):
an `action_type` filter first, then the `user_email` filter with its
special cases, in source order. -/
def statConditions (action_type user_email : Option String) : List SqlCond :=
  (if truthyStr action_type then [SqlCond.actionEq (action_type.getD "")] else []) ++
  (if truthyStr user_email then
    (let u := user_email.getD ""
     if u == "Гость" then [SqlCond.userIsNull]
     else if u == "ACTIVE_USERS" then [SqlCond.activeUsers]
     else if startsL "CUSTOM_LIST:".toList u.toList then
       (let l := parseCustomList u
        if l.isEmpty then [] else [SqlCond.userIn l])
     else [SqlCond.userEq u])
   else [])

/-- SQL semantics of one condition fragment on a row.  Comparisons and
`LIKE` against a NULL `user_email` are not true (SQL three-valued logic
collapses to false in a `WHERE` clause); `IN` is membership;
the `activeUsers` fragment requires a non-NULL email containing neither
`example.com` nor (case-insensitively) `admin`. -/
def evalCond : SqlCond → StatRow → Bool
  | .actionEq v, r => r.action_type == v
  | .userIsNull, r => r.user_email.isNone
  | .activeUsers, r =>
    match r.user_email with
    | none => false
    | some e => !(hasSub "example.com".toList e.toList) &&
                !(hasSub "admin".toList (lowerL e.toList))
  | .userIn vs, r =>
    match r.user_email with
    | none => false
    | some e => vs.contains e
  | .userEq v, r =>
    match r.user_email with
    | none => false
    | some e => e == v

/-- The row set selected by the composed `WHERE` clause (conditions are
joined with `AND`; with no conditions the clause is omitted and every
row qualifies). -/
def statWhere (action_type user_email : Option String) (rows : List StatRow) : List StatRow :=
  rows.filter (fun r => (statConditions action_type user_email).all (fun c => evalCond c r))

/-- `get_statistics_count` (`admin_db.py` lines 302-358): `COUNT(*)` over
the same composed `WHERE` clause. -/
def get_statistics_count (action_type user_email : Option String) (rows : List StatRow) : Nat :=
  (statWhere action_type user_email rows).length

/-- Descending insertion by `timestamp` (stable), the meaning of
`ORDER BY timestamp DESC`. -/
def insertTsDesc (r : StatRow) : List StatRow → List StatRow
  | [] => [r]
  | x :: xs => if x.timestamp < r.timestamp then r :: x :: xs else x :: insertTsDesc r xs

def sortTsDesc (rows : List StatRow) : List StatRow :=
  rows.foldr insertTsDesc []

/-- `get_statistics_with_filters` (`admin_db.py` lines 231-299): filter,
order by timestamp descending, then `LIMIT limit OFFSET offset`. -/
def get_statistics_with_filters (action_type user_email : Option String)
    (limit offset : Int) (rows : List StatRow) : List StatRow :=
  ((sortTsDesc (statWhere action_type user_email rows)).drop offset.toNat).take limit.toNat

/-! ## Spec-side filter predicates (for comparing code against the claims) -/

/-- Claim-side user-filter predicate, read literally from the spec: `Гость`
selects NULL owners; `ACTIVE_USERS` selects present owners matching
neither the `example.com` nor the `admin` pattern; a `CUSTOM_LIST:`
filter selects owners that are members of the parsed list; anything
else is exact equality. -/
def specUserSel (u : String) (r : StatRow) : Bool :=
  if u == "Гость" then r.user_email.isNone
  else if u == "ACTIVE_USERS" then
    (match r.user_email with
     | none => false
     | some e => !(hasSub "example.com".toList e.toList) &&
                 !(hasSub "admin".toList (lowerL e.toList)))
  else if startsL "CUSTOM_LIST:".toList u.toList then
    (match r.user_email with
     | none => false
     | some e => (parseCustomList u).contains e)
  else
    (match r.user_email with
     | none => false
     | some e => e == u)

/-- Claim-side row predicate: conjunction of the active filters. -/
def specStatPred (a u : Option String) (r : StatRow) : Bool :=
  (if truthyStr a then r.action_type == a.getD "" else true) &&
  (if truthyStr u then specUserSel (u.getD "") r else true)

/-- Amended user-filter predicate: as `specUserSel`, except that a
`CUSTOM_LIST:` filter whose parsed list is empty imposes no condition
at all (selects every row). -/
def specUserSelA (u : String) (r : StatRow) : Bool :=
  if u == "Гость" then r.user_email.isNone
  else if u == "ACTIVE_USERS" then
    (match r.user_email with
     | none => false
     | some e => !(hasSub "example.com".toList e.toList) &&
                 !(hasSub "admin".toList (lowerL e.toList)))
  else if startsL "CUSTOM_LIST:".toList u.toList then
    (let l := parseCustomList u
     if l.isEmpty then true
     else match r.user_email with
          | none => false
          | some e => l.contains e)
  else
    (match r.user_email with
     | none => false
     | some e => e == u)

/-- Amended row predicate. -/
def specStatPredA (a u : Option String) (r : StatRow) : Bool :=
  (if truthyStr a then r.action_type == a.getD "" else true) &&
  (if truthyStr u then specUserSelA (u.getD "") r else true)

theorem statConditions_all_eq (a u : Option String) (r : StatRow) :
    (statConditions a u).all (fun c => evalCond c r) = specStatPredA a u r := by
  unfold statConditions specStatPredA specUserSelA
  split_ifs <;>
    simp_all [evalCond, List.all_append] <;>
    rcases hl : parseCustomList (u.getD "") with _ | ⟨v, vs⟩ <;>
    simp_all [evalCond]

theorem statWhere_eq_specA (a u : Option String) (rows : List StatRow) :
    statWhere a u rows = rows.filter (specStatPredA a u) := by
  unfold statWhere
  exact List.filter_congr (fun r _ => statConditions_all_eq a u r)

/-- A concrete statistics row used by concrete evaluations. -/
def sampleRow : StatRow :=
  { action_type := "upload", user_email := some "a@x.com", file_id := none,
    ip_address := none, user_agent := none, additional_info := none, timestamp := 0 }

/-- C4 counterexample: for the filter `CUSTOM_LIST: ` (payload parses to the
empty list) the code selects every row, while the claim's predicate
(membership in the empty list) selects none. -/
theorem C4_filter_counterexample :
    statWhere none (some "CUSTOM_LIST: ") [sampleRow] ≠
      [sampleRow].filter (specStatPred none (some "CUSTOM_LIST: ")) := by
  decide

/-- C4 (amended): for every filter combination the composed WHERE clause
selects exactly the rows satisfying the conjunction of the active
filters with the stated special cases, where a `CUSTOM_LIST:` filter
whose parsed list is empty imposes no user condition; the count query
counts the same row set; and with no filters active the selected set is
the full table, whose size the count-all query reports. -/
theorem C4_filters_amended (a u : Option String) (rows : List StatRow) :
    statWhere a u rows = rows.filter (specStatPredA a u) ∧
    get_statistics_count a u rows = (rows.filter (specStatPredA a u)).length ∧
    statWhere none none rows = rows ∧
    get_statistics_count none none rows = rows.length := by
  refine ⟨statWhere_eq_specA a u rows, ?_, ?_, ?_⟩
  · unfold get_statistics_count
    rw [statWhere_eq_specA]
  · unfold statWhere statConditions
    simp [truthyStr]
  · unfold get_statistics_count statWhere statConditions
    simp [truthyStr]

theorem statConditions_emptyCustom (a : Option String) (u : String)
    (h1 : startsL "CUSTOM_LIST:".toList u.toList = true)
    (h2 : parseCustomList u = []) :
    statConditions a (some u) = statConditions a none := by
  have hne : truthyStr (some u) = true := by
    cases hul : u.toList with
    | nil =>
      rw [hul] at h1
      exact absurd h1 (by decide)
    | cons c cs =>
      have hd : u.data = c :: cs := hul
      simp [truthyStr, hd]
  have hg : (u == "Гость") = false := by
    rcases h : u == "Гость" with _ | _
    · rfl
    · have := eq_of_beq h
      subst this
      exact absurd h1 (by decide)
  have ha : (u == "ACTIVE_USERS") = false := by
    rcases h : u == "ACTIVE_USERS" with _ | _
    · rfl
    · have := eq_of_beq h
      subst this
      exact absurd h1 (by decide)
  have h1' : startsL "CUSTOM_LIST:".toList u.data = true := h1
  unfold statConditions
  rw [hne]
  simp [hg, ha, h1', h2, truthyStr]
  exact h1'

/-- C10: a `CUSTOM_LIST:` user filter whose comma-separated payload
contains only empty or whitespace entries adds no user condition: the
selected rows and the count are those of the same query with no user
filter (subject only to the action-type filter). -/
theorem C10_emptyCustomList (a : Option String) (u : String) (rows : List StatRow)
    (h1 : startsL "CUSTOM_LIST:".toList u.toList = true)
    (h2 : parseCustomList u = []) :
    statWhere a (some u) rows = statWhere a none rows ∧
    get_statistics_count a (some u) rows = get_statistics_count a none rows := by
  have hc := statConditions_emptyCustom a u h1 h2
  constructor
  · unfold statWhere
    rw [hc]
  · unfold get_statistics_count statWhere
    rw [hc]

theorem C10_emptyCustomList_witness :
    startsL "CUSTOM_LIST:".toList "CUSTOM_LIST: , ".toList = true ∧
    parseCustomList "CUSTOM_LIST: , " = [] ∧
    statWhere (some "upload") (some "CUSTOM_LIST: , ") [sampleRow] =
      statWhere (some "upload") none [sampleRow] :=
  ⟨by decide, by decide,
    (C10_emptyCustomList (some "upload") "CUSTOM_LIST: , " [sampleRow]
      (by decide) (by decide)).1⟩

/-! ## Query text and bound parameters (parametrization discipline, C2)

`get_images_list` (`db.py` lines 267-295) builds its query with an
f-string and executes it with no parameter list; the statistics queries
(`admin_db.py`) build a text from fixed fragments and bind every filter
value. -/

/-- `allowed_columns` (`db.py` line 284). -/
def allowed_columns : List String := ["id", "filename", "size", "upload_time"]

/-- `sort_by if sort_by in allowed_columns else 'upload_time'`
(`db.py` line 285). -/
def imagesListSort (sort_by : String) : String :=
  if allowed_columns.contains sort_by then sort_by else "upload_time"

/-- The f-string query of `get_images_list` (`db.py` line 289), with
`offset = (page - 1) * per_page` interpolated into the text. -/
def get_images_list_query (page per_page : Int) (sort_by : String) : String :=
  "SELECT * FROM images ORDER BY " ++ imagesListSort sort_by ++ " DESC LIMIT " ++
    toString per_page ++ " OFFSET " ++ toString ((page - 1) * per_page)

/-- `cur.execute(query)` (`db.py` line 290) passes no bound parameters. -/
def get_images_list_params : List String := []

/-- A bound parameter value (strings for filter values, integers for
`LIMIT`/`OFFSET` and identifiers, `null` for Python `None`). -/
inductive SqlValue where
  | s (v : String)
  | i (v : Int)
  | null
deriving DecidableEq, Repr

/-- An optional string passed as a bound parameter. -/
def optS : Option String → SqlValue
  | none => SqlValue.null
  | some v => SqlValue.s v

/-- An optional integer passed as a bound parameter. -/
def optI : Option Int → SqlValue
  | none => SqlValue.null
  | some v => SqlValue.i v

/-- One executed statement: the query text handed to `cur.execute` and
its bound-parameter tuple.  Multi-line SQL literals from the source are
normalized to one line. -/
structure SqlStmt where
  text : String
  params : List SqlValue
deriving DecidableEq, Repr

/-- The SQL text of one condition fragment, exactly as appended to
`conditions` by the source. -/
def condText : SqlCond → String
  | .actionEq _ => "action_type = %s"
  | .userIsNull => "user_email IS NULL"
  | .activeUsers =>
    "user_email IS NOT NULL AND user_email NOT LIKE '%example.com%' AND LOWER(user_email) NOT LIKE '%admin%'"
  | .userIn vs =>
    "user_email IN (" ++ String.intercalate "," (List.replicate vs.length "%s") ++ ")"
  | .userEq _ => "user_email = %s"

/-- The values one condition appends to `params`. -/
def condParams : SqlCond → List String
  | .actionEq v => [v]
  | .userIsNull => []
  | .activeUsers => []
  | .userIn vs => vs
  | .userEq v => [v]

/-- The full query text of `get_statistics_with_filters` (`admin_db.py`
lines 240-284): base select, optional `WHERE` joining the conditions
with `AND`, then ordering and parametrized `LIMIT`/`OFFSET`. -/
def statQueryText (a u : Option String) : String :=
  "SELECT action_type, user_email, ip_address, timestamp, additional_info FROM statistics" ++
  (let conds := statConditions a u
   if conds.isEmpty then "" else
     " WHERE " ++ String.intercalate " AND " (conds.map condText)) ++
  " ORDER BY timestamp DESC LIMIT %s OFFSET %s"

/-- The bound parameters of `get_statistics_with_filters`: the condition
values in order, then `limit` and `offset` (lines 241-288). -/
def statQueryParams (a u : Option String) (limit offset : Int) : List SqlValue :=
  (((statConditions a u).map condParams).flatten).map SqlValue.s ++
    [SqlValue.i limit, SqlValue.i offset]

/-- The full query text of `get_statistics_count` (`admin_db.py` lines
318-347). -/
def countQueryText (a u : Option String) : String :=
  "SELECT COUNT(*) FROM statistics" ++
  (let conds := statConditions a u
   if conds.isEmpty then "" else
     " WHERE " ++ String.intercalate " AND " (conds.map condText))

/-- The shape of a user filter: which branch of the dispatch is taken,
and for a custom list how many entries the payload parses to.  The
shape carries no filter values. -/
inductive UserShape where
  | absent
  | guest
  | active
  | customL (n : Nat)
  | exact
deriving DecidableEq, Repr

def userShape (user_email : Option String) : UserShape :=
  if truthyStr user_email then
    (let u := user_email.getD ""
     if u == "Гость" then .guest
     else if u == "ACTIVE_USERS" then .active
     else if startsL "CUSTOM_LIST:".toList u.toList then .customL (parseCustomList u).length
     else .exact)
  else .absent

def statShape (a u : Option String) : Bool × UserShape := (truthyStr a, userShape u)

/-- The condition texts determined by a shape alone. -/
def userShapeTexts : UserShape → List String
  | .absent => []
  | .guest => ["user_email IS NULL"]
  | .active =>
    ["user_email IS NOT NULL AND user_email NOT LIKE '%example.com%' AND LOWER(user_email) NOT LIKE '%admin%'"]
  | .customL n =>
    if n == 0 then [] else
      ["user_email IN (" ++ String.intercalate "," (List.replicate n "%s") ++ ")"]
  | .exact => ["user_email = %s"]

def shapeTexts (sh : Bool × UserShape) : List String :=
  (if sh.1 then ["action_type = %s"] else []) ++ userShapeTexts sh.2

theorem map_condText_shape (a u : Option String) :
    (statConditions a u).map condText = shapeTexts (statShape a u) := by
  simp only [statConditions, statShape, userShape, shapeTexts, userShapeTexts]
  split_ifs <;> simp_all [condText, List.isEmpty_iff, List.length_eq_zero]

theorem statQueryText_shape (a u : Option String) :
    statQueryText a u =
      "SELECT action_type, user_email, ip_address, timestamp, additional_info FROM statistics" ++
      (let ts := shapeTexts (statShape a u)
       if ts.isEmpty then "" else " WHERE " ++ String.intercalate " AND " ts) ++
      " ORDER BY timestamp DESC LIMIT %s OFFSET %s" := by
  unfold statQueryText
  rw [← map_condText_shape]
  cases hc : statConditions a u <;> simp [hc]

theorem countQueryText_shape (a u : Option String) :
    countQueryText a u =
      "SELECT COUNT(*) FROM statistics" ++
      (let ts := shapeTexts (statShape a u)
       if ts.isEmpty then "" else " WHERE " ++ String.intercalate " AND " ts) := by
  unfold countQueryText
  rw [← map_condText_shape]
  cases hc : statConditions a u <;> simp [hc]

/-! ### The executed statements of the remaining data-access functions

Each definition mirrors one `cur.execute(text, params)` call of the
source: the text is the literal the source passes (never built from the
argument values) and the params list is the bound tuple.  Functions
whose statement sequence depends on control flow take the deciding
inputs as arguments. -/

/-- `save_image` (`db.py` lines 252-258): one parametrized `INSERT`; the
computed `expiration_date` is bound, never interpolated. -/
def save_image_stmts (now : Int) (filename original_name : String)
    (size upload_time : Int) (file_type : String) (user_email : Option String)
    (storage_days : Int) : List SqlStmt :=
  let expiration_date : Option Int :=
    if truthyStr user_email then some (now + storage_days * 86400) else none
  [⟨"INSERT INTO images (filename, original_name, size, upload_time, file_type, user_email, expiration_date) VALUES (%s, %s, %s, %s, %s, %s, %s)",
    [SqlValue.s filename, SqlValue.s original_name, SqlValue.i size,
      SqlValue.i upload_time, SqlValue.s file_type, optS user_email,
      optI expiration_date]⟩]

/-- `get_total_images` (`db.py` line 309). -/
def get_total_images_stmts : List SqlStmt :=
  [⟨"SELECT COUNT(*) FROM images", []⟩]

/-- `get_image_by_id` (`db.py` line 330). -/
def get_image_by_id_stmts (image_id : Int) : List SqlStmt :=
  [⟨"SELECT * FROM images WHERE id = %s", [SqlValue.i image_id]⟩]

/-- `delete_image` (`db.py` line 351). -/
def delete_image_stmts (image_id : Int) : List SqlStmt :=
  [⟨"DELETE FROM images WHERE id = %s", [SqlValue.i image_id]⟩]

/-- `get_user_images` (`db.py` lines 496-498): pagination is bound here,
unlike in `get_images_list`. -/
def get_user_images_stmts (email : String) (page per_page : Int) : List SqlStmt :=
  [⟨"SELECT * FROM images WHERE user_email = %s ORDER BY upload_time DESC LIMIT %s OFFSET %s",
    [SqlValue.s email, SqlValue.i per_page, SqlValue.i ((page - 1) * per_page)]⟩]

/-- `get_total_user_images` (`db.py` line 519). -/
def get_total_user_images_stmts (email : String) : List SqlStmt :=
  [⟨"SELECT COUNT(*) FROM images WHERE user_email = %s", [SqlValue.s email]⟩]

/-- `get_expired_images` (`db.py` line 538): the current time is bound. -/
def get_expired_images_stmts (now : Int) : List SqlStmt :=
  [⟨"SELECT * FROM images WHERE expiration_date IS NOT NULL AND expiration_date < %s",
    [SqlValue.i now]⟩]

/-- `authenticate_user` (`db.py` line 460). -/
def authenticate_user_stmts (email : String) : List SqlStmt :=
  [⟨"SELECT email, password_hash FROM users WHERE email = %s", [SqlValue.s email]⟩]

/-- `register_user` (`db.py` lines 421 and 432): the duplicate-check
`SELECT` always runs on the store path; the `INSERT` only when the
e-mail is absent. -/
def register_user_stmts (email password_hash : String) (alreadyExists : Bool) :
    List SqlStmt :=
  ⟨"SELECT email FROM users WHERE email = %s", [SqlValue.s email]⟩ ::
    (if alreadyExists then []
     else [⟨"INSERT INTO users (email, password_hash) VALUES (%s, %s)",
       [SqlValue.s email, SqlValue.s password_hash]⟩])

/-- `log_statistics` (`admin_db.py` lines 428 and 433-436): the
owner-existence `SELECT` runs only for a truthy `user_email`
(`userFound` is its outcome, downgrading the insert to anonymous when
false); then one parametrized `INSERT`. -/
def log_statistics_stmts (action_type : String) (user_email : Option String)
    (userFound : Bool) (file_id : Option Int)
    (ip_address user_agent additional_info : Option String) : List SqlStmt :=
  let ue := if truthyStr user_email && !userFound then none else user_email
  (if truthyStr user_email then
      [⟨"SELECT email FROM users WHERE email = %s", [SqlValue.s (user_email.getD "")]⟩]
    else []) ++
  [⟨"INSERT INTO statistics (action_type, user_email, file_id, ip_address, user_agent, additional_info) VALUES (%s, %s, %s, %s, %s, %s)",
    [SqlValue.s action_type, optS ue, optI file_id, optS ip_address,
      optS user_agent, optS additional_info]⟩]

/-- The condition list of `get_statistics` (`admin_db.py` lines 465-478):
plain equality filters only. -/
def getStatisticsConds (a u : Option String) : List SqlCond :=
  (if truthyStr a then [SqlCond.actionEq (a.getD "")] else []) ++
  (if truthyStr u then [SqlCond.userEq (u.getD "")] else [])

/-- `get_statistics` (`admin_db.py` lines 448-492): built like the
filtered query, with bound `LIMIT`/`OFFSET`. -/
def get_statistics_stmts (a u : Option String) (limit offset : Int) : List SqlStmt :=
  let conds := getStatisticsConds a u
  [⟨"SELECT * FROM statistics" ++
      (if conds.isEmpty then ""
       else " WHERE " ++ String.intercalate " AND " (conds.map condText)) ++
      " ORDER BY timestamp DESC LIMIT %s OFFSET %s",
    ((conds.map condParams).flatten).map SqlValue.s ++
      [SqlValue.i limit, SqlValue.i offset]⟩]

/-- `get_total_downloads` (`admin_db.py` line 70). -/
def get_total_downloads_stmts : List SqlStmt :=
  [⟨"SELECT COUNT(*) FROM statistics WHERE action_type = 'download'", []⟩]

/-- `get_total_files_size` (`admin_db.py` line 132). -/
def get_total_files_size_stmts : List SqlStmt :=
  [⟨"SELECT filename, user_email FROM images", []⟩]

/-- `get_unique_action_types` (`admin_db.py` line 372). -/
def get_unique_action_types_stmts : List SqlStmt :=
  [⟨"SELECT DISTINCT action_type FROM statistics ORDER BY action_type", []⟩]

/-- `get_unique_users` (`admin_db.py` line 395). -/
def get_unique_users_stmts : List SqlStmt :=
  [⟨"SELECT DISTINCT user_email FROM statistics WHERE user_email IS NOT NULL ORDER BY user_email", []⟩]

/-- `get_statistics_summary` (`admin_db.py` line 506). -/
def get_statistics_summary_stmts : List SqlStmt :=
  [⟨"SELECT action_type, COUNT(*) FROM statistics GROUP BY action_type ORDER BY COUNT(*) DESC", []⟩]

/-- C2 counterexample: in `get_images_list` the user-supplied pagination
values are interpolated into the query text, not bound — the executed
parameter list is empty, yet changing `per_page` changes the query
text, so the text does not range over a set of templates independent of
user-supplied values. -/
theorem C2_interpolation_counterexample :
    get_images_list_params = ([] : List String) ∧
    get_images_list_query 1 10 "upload_time" ≠ get_images_list_query 1 11 "upload_time" := by
  constructor
  · rfl
  · decide

/-- C2 (amended): every data-access function except `get_images_list`
passes user-supplied values only in the bound-parameter list and its
query text never carries an argument value: the filtered statistics
queries have text that is a function of the filter shape alone; the
`get_statistics` variant and `log_statistics`/`register_user` have text
depending only on which control-flow branch runs; the single-statement
functions (`save_image`, `get_image_by_id`, `delete_image`,
`get_user_images`, `get_total_user_images`, `get_expired_images`,
`authenticate_user`) have text independent of every argument; the
argumentless queries bind nothing.  `get_images_list` alone executes
with an empty parameter list, drawing only its sort column from the
fixed allowlist while interpolating the pagination values. -/
theorem C2_amended (a u a' u' : Option String) (sort_by : String)
    (h : statShape a u = statShape a' u') :
    statQueryText a u = statQueryText a' u' ∧
    countQueryText a u = countQueryText a' u' ∧
    allowed_columns.contains (imagesListSort sort_by) = true ∧
    get_images_list_params = [] ∧
    (∀ (n1 : Int) (f1 o1 : String) (s1 t1 : Int) (y1 : String) (e1 : Option String)
       (d1 : Int) (n2 : Int) (f2 o2 : String) (s2 t2 : Int) (y2 : String)
       (e2 : Option String) (d2 : Int),
      (save_image_stmts n1 f1 o1 s1 t1 y1 e1 d1).map SqlStmt.text =
        (save_image_stmts n2 f2 o2 s2 t2 y2 e2 d2).map SqlStmt.text) ∧
    (∀ i1 i2 : Int,
      (get_image_by_id_stmts i1).map SqlStmt.text =
        (get_image_by_id_stmts i2).map SqlStmt.text) ∧
    (∀ i1 i2 : Int,
      (delete_image_stmts i1).map SqlStmt.text =
        (delete_image_stmts i2).map SqlStmt.text) ∧
    (∀ (e1 : String) (p1 q1 : Int) (e2 : String) (p2 q2 : Int),
      (get_user_images_stmts e1 p1 q1).map SqlStmt.text =
        (get_user_images_stmts e2 p2 q2).map SqlStmt.text) ∧
    (∀ e1 e2 : String,
      (get_total_user_images_stmts e1).map SqlStmt.text =
        (get_total_user_images_stmts e2).map SqlStmt.text) ∧
    (∀ n1 n2 : Int,
      (get_expired_images_stmts n1).map SqlStmt.text =
        (get_expired_images_stmts n2).map SqlStmt.text) ∧
    (∀ e1 e2 : String,
      (authenticate_user_stmts e1).map SqlStmt.text =
        (authenticate_user_stmts e2).map SqlStmt.text) ∧
    (∀ (e1 p1 e2 p2 : String) (ex : Bool),
      (register_user_stmts e1 p1 ex).map SqlStmt.text =
        (register_user_stmts e2 p2 ex).map SqlStmt.text) ∧
    (∀ (t1 : String) (e1 : Option String) (w1 : Bool) (g1 : Option Int)
       (i1 j1 k1 : Option String) (t2 : String) (e2 : Option String) (w2 : Bool)
       (g2 : Option Int) (i2 j2 k2 : Option String),
      truthyStr e1 = truthyStr e2 →
      (log_statistics_stmts t1 e1 w1 g1 i1 j1 k1).map SqlStmt.text =
        (log_statistics_stmts t2 e2 w2 g2 i2 j2 k2).map SqlStmt.text) ∧
    (∀ (b1 v1 : Option String) (l1 m1 : Int) (b2 v2 : Option String) (l2 m2 : Int),
      truthyStr b1 = truthyStr b2 → truthyStr v1 = truthyStr v2 →
      (get_statistics_stmts b1 v1 l1 m1).map SqlStmt.text =
        (get_statistics_stmts b2 v2 l2 m2).map SqlStmt.text) ∧
    (get_total_images_stmts ++ get_total_downloads_stmts ++ get_total_files_size_stmts ++
        get_unique_action_types_stmts ++ get_unique_users_stmts ++
        get_statistics_summary_stmts).all (fun q => q.params.isEmpty) = true := by
  refine ⟨?_, ?_, ?_, rfl, fun _ _ _ _ _ _ _ _ _ _ _ _ _ _ _ _ => rfl,
    fun _ _ => rfl, fun _ _ => rfl, fun _ _ _ _ _ _ => rfl, fun _ _ => rfl,
    fun _ _ => rfl, fun _ _ => rfl, ?_, ?_, ?_, rfl⟩
  · rw [statQueryText_shape, statQueryText_shape, h]
  · rw [countQueryText_shape, countQueryText_shape, h]
  · unfold imagesListSort
    split_ifs with hs
    · exact hs
    · decide
  · intro e1 p1 e2 p2 ex
    cases ex <;> rfl
  · intro t1 e1 w1 g1 i1 j1 k1 t2 e2 w2 g2 i2 j2 k2 hte
    unfold log_statistics_stmts
    rw [← hte]
    by_cases ht : truthyStr e1 = true <;> simp [ht]
  · intro b1 v1 l1 m1 b2 v2 l2 m2 hb hv
    unfold get_statistics_stmts getStatisticsConds
    rw [← hb, ← hv]
    by_cases hta : truthyStr b1 = true <;> by_cases htu : truthyStr v1 = true <;>
      simp [hta, htu, condText]

theorem C2_amended_witness :
    statShape (some "upload") (some "CUSTOM_LIST:a@x.com, b@y.com") =
      statShape (some "download") (some "CUSTOM_LIST: p ,q,, ") ∧
    statQueryText (some "upload") (some "CUSTOM_LIST:a@x.com, b@y.com") =
      statQueryText (some "download") (some "CUSTOM_LIST: p ,q,, ") :=
  ⟨by decide,
    (C2_amended (some "upload") (some "CUSTOM_LIST:a@x.com, b@y.com")
      (some "download") (some "CUSTOM_LIST: p ,q,, ") "size" (by decide)).1⟩

/-! ## The db.py access functions under an explicit failure environment

`connect_db` (`db.py` lines 42-91) catches every connection error and
returns `None`; the callers in `db.py` check `if not conn` and return
their safe value.  Nothing in `db.py` wraps the cursor operations, so a
query that raises propagates out of the function; the `admin_db.py`
functions instead wrap their whole body in `try`/`except` and return
their safe value on any failure.  The environment records both modes of
failure; a propagated exception is the `Except.error` result. -/

/-- A row of the `images` table (`db.py`, `create_table_images`). -/
structure ImageRow where
  id : Int
  filename : String
  original_name : String
  size : Int
  upload_time : Int
  file_type : String
  user_email : Option String
  expiration_date : Option Int
deriving DecidableEq, Repr

/-- The environment of one data-access call: does `connect_db()` return a
connection, and do the cursor operations succeed. -/
structure DbEnv where
  connOk : Bool
  queryOk : Bool
deriving DecidableEq, Repr

/-- A store-level exception escaping a data-access function. -/
inductive DbError where
  | queryRaised
deriving DecidableEq, Repr

/-- Strict comparison used by `ORDER BY col DESC` for the allowlisted
columns of `get_images_list`. -/
def colLt (col : String) (x y : ImageRow) : Bool :=
  if col == "id" then decide (x.id < y.id)
  else if col == "filename" then decide (x.filename < y.filename)
  else if col == "size" then decide (x.size < y.size)
  else decide (x.upload_time < y.upload_time)

def insertDescBy (lt : ImageRow → ImageRow → Bool) (r : ImageRow) :
    List ImageRow → List ImageRow
  | [] => [r]
  | x :: xs => if lt x r then r :: x :: xs else x :: insertDescBy lt r xs

def sortDescBy (lt : ImageRow → ImageRow → Bool) (rows : List ImageRow) : List ImageRow :=
  rows.foldr (insertDescBy lt) []

/-- `get_images_list` (`db.py` lines 267-295): `[]` when the connection is
unavailable; the query result (sorted, paginated) otherwise; a raising
query propagates. -/
def get_images_list_run (env : DbEnv) (page per_page : Int) (sort_by : String)
    (tbl : List ImageRow) : Except DbError (List ImageRow) :=
  if !env.connOk then .ok []
  else if !env.queryOk then .error .queryRaised
  else .ok (((sortDescBy (colLt (imagesListSort sort_by)) tbl).drop
      ((page - 1) * per_page).toNat).take per_page.toNat)

/-- `get_total_images` (`db.py` lines 298-314). -/
def get_total_images_run (env : DbEnv) (tbl : List ImageRow) : Except DbError Nat :=
  if !env.connOk then .ok 0
  else if !env.queryOk then .error .queryRaised
  else .ok tbl.length

/-- `get_image_by_id` (`db.py` lines 317-335). -/
def get_image_by_id_run (env : DbEnv) (image_id : Int) (tbl : List ImageRow) :
    Except DbError (Option ImageRow) :=
  if !env.connOk then .ok none
  else if !env.queryOk then .error .queryRaised
  else .ok (tbl.find? (fun r => r.id == image_id))

/-- `get_user_images` (`db.py` lines 481-503). -/
def get_user_images_run (env : DbEnv) (email : String) (page per_page : Int)
    (tbl : List ImageRow) : Except DbError (List ImageRow) :=
  if !env.connOk then .ok []
  else if !env.queryOk then .error .queryRaised
  else .ok (((sortDescBy (colLt "upload_time")
      (tbl.filter (fun r => r.user_email == some email))).drop
      ((page - 1) * per_page).toNat).take per_page.toNat)

/-- `get_expired_images` (`db.py` lines 527-543): rows whose
`expiration_date` is non-NULL and strictly before `now`. -/
def get_expired_images_run (env : DbEnv) (now : Int) (tbl : List ImageRow) :
    Except DbError (List ImageRow) :=
  if !env.connOk then .ok []
  else if !env.queryOk then .error .queryRaised
  else .ok (tbl.filter (fun r =>
    match r.expiration_date with
    | none => false
    | some d => decide (d < now)))

/-- The next `SERIAL` identifier for an insert into `images`. -/
def nextImageId (tbl : List ImageRow) : Int :=
  (tbl.foldl (fun m r => max m r.id) 0) + 1

/-- `save_image` (`db.py` lines 216-264): `False` when the connection is
unavailable; otherwise computes `expiration_date = datetime.now() +
timedelta(days=storage_days)` when `user_email` is truthy (`None`
otherwise) and inserts the row; a raising insert propagates. -/
def save_image_run (env : DbEnv) (now : Int) (filename original_name : String)
    (size upload_time : Int) (file_type : String) (user_email : Option String)
    (storage_days : Int) (tbl : List ImageRow) : Except DbError (Bool × List ImageRow) :=
  if !env.connOk then .ok (false, tbl)
  else
    let expiration_date : Option Int :=
      if truthyStr user_email then some (now + storage_days * 86400) else none
    if !env.queryOk then .error .queryRaised
    else .ok (true,
      tbl ++ [⟨nextImageId tbl, filename, original_name, size, upload_time,
        file_type, user_email, expiration_date⟩])

/-- `delete_image` (`db.py` lines 338-356). -/
def delete_image_run (env : DbEnv) (image_id : Int) (tbl : List ImageRow) :
    Except DbError (Bool × List ImageRow) :=
  if !env.connOk then .ok (false, tbl)
  else if !env.queryOk then .error .queryRaised
  else .ok (true, tbl.filter (fun r => !(r.id == image_id)))

/-- `get_statistics_with_filters` under the environment: the whole body is
inside `try`/`except`, so every failure (including `connect_db()`
returning `None`, which makes `conn.cursor()` raise) yields `[]`. -/
def get_statistics_with_filters_run (env : DbEnv) (a u : Option String)
    (limit offset : Int) (rows : List StatRow) : List StatRow :=
  if !env.connOk || !env.queryOk then []
  else get_statistics_with_filters a u limit offset rows

/-- `get_statistics_count` under the environment (same `try`/`except`
shape, safe value `0`). -/
def get_statistics_count_run (env : DbEnv) (a u : Option String)
    (rows : List StatRow) : Nat :=
  if !env.connOk || !env.queryOk then 0
  else get_statistics_count a u rows

/-- A row of the `users` table (`db.py`, `create_table_users`). -/
structure UserRow where
  email : String
  password_hash : String
deriving DecidableEq, Repr

/-- `log_statistics` (`admin_db.py` lines 407-445): on any failure returns
`False`; otherwise, when the given `user_email` is truthy but not
present in `users`, the write is downgraded to an anonymous entry. -/
def log_statistics_run (env : DbEnv) (action_type : String) (user_email : Option String)
    (file_id : Option Int) (ip_address user_agent additional_info : Option String)
    (now : Int) (users : List UserRow) (stats : List StatRow) : Bool × List StatRow :=
  if !env.connOk || !env.queryOk then (false, stats)
  else
    let ue := if truthyStr user_email &&
                 !(users.any (fun w => w.email == user_email.getD "")) then none
              else user_email
    (true,
      stats ++ [⟨action_type, ue, file_id, ip_address, user_agent, additional_info, now⟩])

/-- C1 counterexample: with the connection up and the query raising,
`get_images_list` propagates the exception instead of returning the
safe empty list. -/
theorem C1_propagation_counterexample :
    get_images_list_run { connOk := true, queryOk := false } 1 10 "upload_time" [] =
      .error .queryRaised ∧
    get_images_list_run { connOk := true, queryOk := false } 1 10 "upload_time" [] ≠
      .ok [] := by
  exact ⟨rfl, fun h => Except.noConfusion h⟩

/-- C1 (amended): the `admin_db.py` functions normalize every failure —
the two read functions return their safe empty/zero value and
`log_statistics` returns `False` — while the `db.py` functions return
their safe value or `False` flag only when the connection is
unavailable; a query that raises propagates out of every `db.py`
function listed. -/
theorem C1_error_handling_amended (env : DbEnv)
    (page per_page image_id size upload_time storage_days now limit offset : Int)
    (sort_by email filename original_name file_type action_type : String)
    (user_email a u ip_address user_agent additional_info : Option String)
    (file_id : Option Int)
    (tbl : List ImageRow) (users : List UserRow) (rows stats : List StatRow) :
    (env.connOk = false →
      get_images_list_run env page per_page sort_by tbl = .ok [] ∧
      get_total_images_run env tbl = .ok 0 ∧
      get_image_by_id_run env image_id tbl = .ok none ∧
      get_user_images_run env email page per_page tbl = .ok [] ∧
      get_expired_images_run env now tbl = .ok [] ∧
      save_image_run env now filename original_name size upload_time file_type
        user_email storage_days tbl = .ok (false, tbl) ∧
      delete_image_run env image_id tbl = .ok (false, tbl)) ∧
    (env.connOk = true → env.queryOk = false →
      get_images_list_run env page per_page sort_by tbl = .error .queryRaised ∧
      get_total_images_run env tbl = .error .queryRaised ∧
      get_image_by_id_run env image_id tbl = .error .queryRaised ∧
      get_user_images_run env email page per_page tbl = .error .queryRaised ∧
      get_expired_images_run env now tbl = .error .queryRaised ∧
      save_image_run env now filename original_name size upload_time file_type
        user_email storage_days tbl = .error .queryRaised ∧
      delete_image_run env image_id tbl = .error .queryRaised) ∧
    (env.connOk = false ∨ env.queryOk = false →
      get_statistics_with_filters_run env a u limit offset rows = [] ∧
      get_statistics_count_run env a u rows = 0 ∧
      (log_statistics_run env action_type user_email file_id ip_address user_agent
        additional_info now users stats) = (false, stats)) := by
  rcases env with ⟨co, qo⟩
  refine ⟨?_, ?_, ?_⟩
  · intro h
    subst h
    simp [get_images_list_run, get_total_images_run, get_image_by_id_run,
      get_user_images_run, get_expired_images_run, save_image_run, delete_image_run]
  · intro h1 h2
    subst h1
    subst h2
    simp [get_images_list_run, get_total_images_run, get_image_by_id_run,
      get_user_images_run, get_expired_images_run, save_image_run, delete_image_run]
  · intro h
    rcases h with h | h <;> subst h <;>
      simp [get_statistics_with_filters_run, get_statistics_count_run, log_statistics_run]

theorem C1_error_handling_amended_witness :
    ({ connOk := false, queryOk := true } : DbEnv).connOk = false ∧
    get_images_list_run { connOk := false, queryOk := true } 1 10 "upload_time" [] = .ok [] :=
  ⟨rfl,
    ((C1_error_handling_amended { connOk := false, queryOk := true }
      1 10 0 0 0 30 0 50 0 "upload_time" "e" "f" "o" "png" "upload"
      none none none none none none none [] [] [] []).1 rfl).1⟩

/-- C7: a successful `save_image` call at time `T` (so `upload_time = T`,
as at the call site, which passes `datetime.now()`) stores a row whose
`expiration_date` is exactly `T + storage_days` days (86400 seconds per
day) when `user_email` is non-empty, and no expiration when
`user_email` is absent (falsy). -/
theorem C7_expiration (env : DbEnv) (now : Int) (filename original_name : String)
    (size upload_time : Int) (file_type : String) (user_email : Option String)
    (storage_days : Int) (tbl : List ImageRow)
    (hc : env.connOk = true) (hq : env.queryOk = true) (ht : upload_time = now) :
    ∃ row : ImageRow,
      save_image_run env now filename original_name size upload_time file_type
        user_email storage_days tbl = .ok (true, tbl ++ [row]) ∧
      row.upload_time = upload_time ∧
      (truthyStr user_email = true →
        row.expiration_date = some (upload_time + storage_days * 86400)) ∧
      (truthyStr user_email = false → row.expiration_date = none) := by
  subst ht
  refine ⟨⟨nextImageId tbl, filename, original_name, size, upload_time, file_type, user_email,
    if truthyStr user_email then some (upload_time + storage_days * 86400) else none⟩, ?_, rfl, ?_, ?_⟩
  · simp [save_image_run, hc, hq]
  · intro h
    simp [h]
  · intro h
    simp [h]

theorem C7_expiration_witness :
    truthyStr (some "u@x.com") = true ∧
    (∃ row : ImageRow,
      save_image_run { connOk := true, queryOk := true } 1000 "f.png" "o.png" 5 1000
        "png" (some "u@x.com") 30 [] = .ok (true, [] ++ [row]) ∧
      row.upload_time = 1000 ∧
      (truthyStr (some "u@x.com") = true →
        row.expiration_date = some (1000 + 30 * 86400)) ∧
      (truthyStr (some "u@x.com") = false → row.expiration_date = none)) :=
  ⟨by decide,
    C7_expiration { connOk := true, queryOk := true } 1000 "f.png" "o.png" 5 1000
      "png" (some "u@x.com") 30 [] rfl rfl rfl⟩

/-! ## register_user (`db.py` lines 368-441) -/

/-- The admin e-mail list built from the environment (`db.py` lines
390-396): split `ADMIN_EMAILS` on commas, strip, drop empties, and
append `ADMIN_EMAIL` when missing. -/
def buildAdminEmails (admin_email admin_emails_str : String) : List String :=
  let l := (((splitComma admin_emails_str.toList).map stripChars).filter
    (fun s => !s.isEmpty)).map List.asString
  if l.contains admin_email then l else l ++ [admin_email]

/-- `register_user` (`db.py` lines 368-441).  The admin guard runs first;
then the connection check; then the duplicate-e-mail `SELECT` (outside
any `try`, so a raising `SELECT` propagates — `selectOk`); then the
`INSERT` inside `try`/`except` (a failing insert is rolled back and
reported as a flag — `insertOk`).  `hash` stands for SHA-256; the
dynamic text appended to the insert-failure message is omitted. -/
def register_user_run (hash : String → String) (connOk selectOk insertOk : Bool)
    (adminEmails : List String) (adminPassword : Option String)
    (email password : String) (users : List UserRow) :
    Except DbError ((Bool × String) × List UserRow) :=
  if adminEmails.contains email && !(truthyStr adminPassword) then
    .ok ((false, "Ошибка конфигурации: пароль администратора не установлен."), users)
  else if adminEmails.contains email && !(password == adminPassword.getD "") then
    .ok ((false, "Неверный логин или пароль для регистрации администратора. Логин или пароль должен быть правильным!!!."), users)
  else if !connOk then
    .ok ((false, "Ошибка подключения к базе данных"), users)
  else if !selectOk then .error .queryRaised
  else if users.any (fun w => w.email == email) then
    .ok ((false, "Пользователь с таким email уже существует"), users)
  else if insertOk then
    .ok ((true, "Регистрация прошла успешно"), users ++ [⟨email, hash password⟩])
  else
    .ok ((false, "Ошибка при регистрации"), users)

/-- C9: registering the same non-admin e-mail twice (store reachable and
healthy, e-mail not yet present): the first call succeeds, the second
fails with the already-exists message and leaves the table unchanged,
and exactly one row for the e-mail exists afterwards; moreover any
`register_user` call preserves "at most one row per e-mail". -/
theorem C9_register_twice (hash : String → String) (adminEmails : List String)
    (adminPassword : Option String) (email pw1 pw2 : String) (users : List UserRow)
    (hadm : adminEmails.contains email = false)
    (hfresh : users.countP (fun w => w.email == email) = 0) :
    (∃ users1,
      register_user_run hash true true true adminEmails adminPassword email pw1 users =
        .ok ((true, "Регистрация прошла успешно"), users1) ∧
      register_user_run hash true true true adminEmails adminPassword email pw2 users1 =
        .ok ((false, "Пользователь с таким email уже существует"), users1) ∧
      users1.countP (fun w => w.email == email) = 1) ∧
    (∀ (co so io : Bool) (e p e' : String) (us us' : List UserRow) (res : Bool × String),
      us.countP (fun w => w.email == e') ≤ 1 →
      register_user_run hash co so io adminEmails adminPassword e p us = .ok (res, us') →
      us'.countP (fun w => w.email == e') ≤ 1) := by
  constructor
  · have hany : users.any (fun w => w.email == email) = false := by
      rw [List.any_eq_false]
      intro w hw
      have h0 := List.countP_eq_zero.mp hfresh w hw
      simpa using h0
    have hmem : ¬ email ∈ adminEmails := by simpa using hadm
    refine ⟨users ++ [⟨email, hash pw1⟩], ?_, ?_, ?_⟩
    · simp [register_user_run, hmem, hany]
    · have hany2 : (users ++ [(⟨email, hash pw1⟩ : UserRow)]).any
          (fun w => w.email == email) = true := by
        simp
      simp [register_user_run, hmem, hany2]
    · rw [List.countP_append, hfresh]
      simp
  · intro co so io e p e' us us' res hcount hreg
    unfold register_user_run at hreg
    split_ifs at hreg with h1 h2 h3 h4 h5 h6
    · injection hreg with hreg1
      injection hreg1 with _ hustate
      subst hustate
      exact hcount
    · injection hreg with hreg1
      injection hreg1 with _ hustate
      subst hustate
      exact hcount
    · injection hreg with hreg1
      injection hreg1 with _ hustate
      subst hustate
      exact hcount
    · injection hreg with hreg1
      injection hreg1 with _ hustate
      subst hustate
      exact hcount
    · injection hreg with hreg1
      injection hreg1 with _ hustate
      subst hustate
      rw [List.countP_append]
      by_cases he : e = e'
      · subst he
        have hzero : us.countP (fun w => w.email == e) = 0 := by
          rw [List.countP_eq_zero]
          intro w hw hweq
          exact h5 (List.any_eq_true.mpr ⟨w, hw, hweq⟩)
        rw [hzero]
        simp
      · have hne : ((⟨e, hash p⟩ : UserRow).email == e') = false := by
          simpa using he
        simp [hne]
        exact hcount
    · injection hreg with hreg1
      injection hreg1 with _ hustate
      subst hustate
      exact hcount

theorem C9_register_twice_witness :
    (["admin@example.com"].contains "a@x.com" = false) ∧
    (([] : List UserRow).countP (fun w => w.email == "a@x.com") = 0) ∧
    (∃ users1,
      register_user_run (fun s => s) true true true ["admin@example.com"] none
          "a@x.com" "pw1" [] =
        .ok ((true, "Регистрация прошла успешно"), users1) ∧
      register_user_run (fun s => s) true true true ["admin@example.com"] none
          "a@x.com" "pw2" users1 =
        .ok ((false, "Пользователь с таким email уже существует"), users1) ∧
      users1.countP (fun w => w.email == "a@x.com") = 1) :=
  ⟨by decide, by decide,
    (C9_register_twice (fun s => s) ["admin@example.com"] none "a@x.com" "pw1" "pw2" []
      (by decide) (by decide)).1⟩

/-! ## The connection pool (`db_pool.py`, `DatabasePool.get_connection`,
lines 99-147)

The underlying psycopg2 `ThreadedConnectionPool` is an external
collaborator; `getconn`/`putconn` below are modelled from its documented
behavior: `getconn` hands out an idle connection, opens a new one while
fewer than `maxconn` are checked out, and otherwise raises `PoolError`
(it never returns a falsy value); `putconn` raises `PoolError` for a
connection that is not checked out, and otherwise removes it from the
checked-out set, re-adding it to the idle list only when that list is
below `minconn` and the connection is neither being closed nor broken
(a closed/broken connection is discarded).  Connections are identified
by numeric keys; `broken` tells which connections report `closed`. -/

structure PyPool where
  idle : List Nat
  used : List Nat
  nextKey : Nat
  minconn : Nat
  maxconn : Nat
deriving DecidableEq, Repr

inductive PoolErr where
  | exhausted
  | unkeyed
deriving DecidableEq, Repr

def getconn (p : PyPool) : Except PoolErr (Option Nat) × PyPool :=
  match p.idle with
  | c :: rest => (.ok (some c), { p with idle := rest, used := c :: p.used })
  | [] =>
    if p.used.length == p.maxconn then (.error .exhausted, p)
    else (.ok (some p.nextKey),
      { p with used := p.nextKey :: p.used, nextKey := p.nextKey + 1 })

def putconn (broken : Nat → Bool) (close : Bool) (c : Nat) (p : PyPool) :
    Except PoolErr PyPool :=
  if !(p.used.contains c) then .error .unkeyed
  else if decide (p.idle.length < p.minconn) && !close && !(broken c) then
    .ok { p with used := p.used.erase c, idle := p.idle ++ [c] }
  else
    .ok { p with used := p.used.erase c }

theorem getconn_ne_ok_none (p : PyPool) (p' : PyPool)
    (h : getconn p = (.ok none, p')) : False := by
  unfold getconn at h
  rcases hi : p.idle with _ | ⟨c, rest⟩ <;> rw [hi] at h
  · split_ifs at h <;> simp_all
  · simp_all

/-- The `_stats` dictionary of `DatabasePool` (the fields this
verification tracks). -/
structure PoolStats where
  active_connections : Int
  failed_connections : Nat
  pool_exhausted : Nat
deriving DecidableEq, Repr

structure DBPoolState where
  pool : PyPool
  stats : PoolStats
deriving DecidableEq, Repr

/-- How the scoped acquisition can fail: a propagating psycopg2
`PoolError`, the source's own `raise Exception("Pool exhausted: no
available connections")`, or an exception from the caller's block. -/
inductive CMErr where
  | poolError
  | exhaustedNone
  | bodyRaised
deriving DecidableEq, Repr

/-- The `finally` block (`db_pool.py` lines 140-147): when the `conn`
variable holds a connection, try to return it to the pool and decrement
`active_connections`; a failure of the return is logged only (the
decrement is skipped). -/
def finallyRelease (broken : Nat → Bool) (conn : Option Nat) (p : PyPool)
    (stats : PoolStats) : DBPoolState :=
  match conn with
  | none => ⟨p, stats⟩
  | some c =>
    match putconn broken false c p with
    | .ok p' =>
      ⟨p', { stats with active_connections := stats.active_connections - 1 }⟩
    | .error _ => ⟨p, stats⟩

/-- `DatabasePool.get_connection` (`db_pool.py` lines 99-147) around one
caller block.  `bodyFails` tells whether the caller's block raises.
The result carries the connection the block received (`.ok`) or the
propagated exception (`.error`); the state is the pool and counters
after the `finally` block.  Control flow, in source order: acquire
(a raised `PoolError` increments `failed_connections` and propagates);
a falsy connection would increment `pool_exhausted` and raise; a closed
connection is returned with `close=True` and a replacement acquired
(note the `conn` variable still names the discarded connection if the
reacquisition raises); `active_connections` is incremented before the
block runs; a block exception increments `failed_connections` and
propagates; the `finally` block always runs last. -/
def withConnection (broken : Nat → Bool) (bodyFails : Bool) (st : DBPoolState) :
    Except CMErr (Option Nat) × DBPoolState :=
  match getconn st.pool with
  | (.error _, p1) =>
    let stats := { st.stats with
      failed_connections := st.stats.failed_connections + 1 }
    (.error .poolError, finallyRelease broken none p1 stats)
  | (.ok none, p1) =>
    let stats := { st.stats with
      pool_exhausted := st.stats.pool_exhausted + 1,
      failed_connections := st.stats.failed_connections + 1 }
    (.error .exhaustedNone, finallyRelease broken none p1 stats)
  | (.ok (some c), p1) =>
    if broken c then
      match putconn broken true c p1 with
      | .error _ =>
        let stats := { st.stats with
          failed_connections := st.stats.failed_connections + 1 }
        (.error .poolError, finallyRelease broken (some c) p1 stats)
      | .ok p2 =>
        match getconn p2 with
        | (.error _, p3) =>
          let stats := { st.stats with
            failed_connections := st.stats.failed_connections + 1 }
          (.error .poolError, finallyRelease broken (some c) p3 stats)
        | (.ok none, p3) =>
          let stats1 := { st.stats with
            active_connections := st.stats.active_connections + 1 }
          let stats2 := if bodyFails then
              { stats1 with failed_connections := stats1.failed_connections + 1 }
            else stats1
          ((if bodyFails then .error .bodyRaised else .ok none),
            finallyRelease broken none p3 stats2)
        | (.ok (some c2), p3) =>
          let stats1 := { st.stats with
            active_connections := st.stats.active_connections + 1 }
          let stats2 := if bodyFails then
              { stats1 with failed_connections := stats1.failed_connections + 1 }
            else stats1
          ((if bodyFails then .error .bodyRaised else .ok (some c2)),
            finallyRelease broken (some c2) p3 stats2)
    else
      let stats1 := { st.stats with
        active_connections := st.stats.active_connections + 1 }
      let stats2 := if bodyFails then
          { stats1 with failed_connections := stats1.failed_connections + 1 }
        else stats1
      ((if bodyFails then .error .bodyRaised else .ok (some c)),
        finallyRelease broken (some c) p1 stats2)

/-- Well-formedness of the pool state: no duplicate keys, checked-out and
idle sets disjoint, keys below the fresh-key supply, the
`active_connections` counter equal to the number of checked-out
connections, and the idle list within `minconn`. -/
def PoolWF (st : DBPoolState) : Prop :=
  st.pool.used.Nodup ∧ st.pool.idle.Nodup ∧
  (∀ c ∈ st.pool.used, c ∉ st.pool.idle) ∧
  (∀ c ∈ st.pool.used, c < st.pool.nextKey) ∧
  (∀ c ∈ st.pool.idle, c < st.pool.nextKey) ∧
  st.stats.active_connections = st.pool.used.length ∧
  st.pool.idle.length ≤ st.pool.minconn

theorem nodup_snoc {l : List Nat} {c : Nat} (h1 : l.Nodup) (h2 : c ∉ l) :
    (l ++ [c]).Nodup := by
  rw [List.nodup_append_comm]
  exact List.nodup_cons.mpr ⟨h2, h1⟩

/-- C5: scoped acquisition on a well-formed pool state, on every exit
path (normal return, an exception in the caller's block, a broken
connection at the head of the idle list), leaves the checked-out set
exactly as it was (the acquired connection is returned exactly once),
keeps the `active_connections` counter equal to the number of
checked-out connections, preserves well-formedness, and for a healthy
acquire/release cycle rotates the idle list (same idle set, no leak). -/
theorem C5_scoped_release (broken : Nat → Bool) (bodyFails : Bool) (st : DBPoolState)
    (hwf : PoolWF st) :
    (withConnection broken bodyFails st).2.pool.used = st.pool.used ∧
    PoolWF (withConnection broken bodyFails st).2 ∧
    (∀ c rest, st.pool.idle = c :: rest → broken c = false →
      (withConnection broken bodyFails st).2.pool.idle = rest ++ [c]) := by
  obtain ⟨⟨idle, used, nk, minc, maxc⟩, act, fc, pe⟩ := st
  obtain ⟨hndU, hndI, hdisj, hku, hki, hact, hidle⟩ := hwf
  dsimp only at hndU hndI hdisj hku hki hact hidle
  cases idle with
  | nil =>
    by_cases hcap : used.length = maxc
    · simp [withConnection, getconn, finallyRelease, PoolWF, hcap]
      exact ⟨hndU, hku, by omega⟩
    · by_cases hb : broken nk
      · by_cases hb2 : broken (nk + 1) <;>
          by_cases hm : 0 < minc <;>
          simp [withConnection, getconn, putconn, finallyRelease, PoolWF, hcap, hb, hb2, hm,
            List.erase_cons_head] <;>
          (repeat' apply And.intro) <;>
          first
          | exact hndU
          | (intro x hx; have := hku x hx; omega)
          | (cases bodyFails <;> (try simp) <;> omega)
      · by_cases hm : 0 < minc <;>
          simp [withConnection, getconn, putconn, finallyRelease, PoolWF, hcap, hb, hm,
            List.erase_cons_head] <;>
          (repeat' apply And.intro) <;>
          first
          | exact hndU
          | (intro x hx; have := hku x hx; omega)
          | (cases bodyFails <;> (try simp) <;> omega)
  | cons c rest =>
    have hndR : rest.Nodup := (List.nodup_cons.mp hndI).2
    have hcr : c ∉ rest := (List.nodup_cons.mp hndI).1
    have hkc : c < nk := hki c (List.mem_cons_self c rest)
    have hkr : ∀ x ∈ rest, x < nk := fun x hx => hki x (List.mem_cons_of_mem c hx)
    have hcnu : c ∉ used := fun hc => hdisj c hc (List.mem_cons_self c rest)
    have hrl : rest.length < minc := by
      have := hidle
      simp at this
      omega
    by_cases hb : broken c
    · cases rest with
      | nil =>
        by_cases hcap : used.length = maxc
        · simp [withConnection, getconn, putconn, finallyRelease, PoolWF, hb, hcap, hcnu,
            List.erase_cons_head]
          exact ⟨hndU, hku, by omega⟩
        · have hm0 : 0 < minc := by simpa using hrl
          by_cases hb2 : broken nk <;>
            simp [withConnection, getconn, putconn, finallyRelease, PoolWF, hb, hb2, hcap, hcnu,
              hm0, List.erase_cons_head] <;>
            (repeat' apply And.intro) <;>
            first
            | exact hndU
            | (intro x hx; have := hku x hx; omega)
            | (cases bodyFails <;> (try simp) <;> omega)
            | (simp; done)
            | omega
      | cons c2 rest2 =>
        have hnd2 : rest2.Nodup := (List.nodup_cons.mp hndR).2
        have hc2r : c2 ∉ rest2 := (List.nodup_cons.mp hndR).1
        have hkc2 : c2 < nk := hkr c2 (List.mem_cons_self c2 rest2)
        have hk2 : ∀ x ∈ rest2, x < nk := fun x hx => hkr x (List.mem_cons_of_mem c2 hx)
        have hc2u : c2 ∉ used := fun hc => hdisj c2 hc (by simp)
        have hm2 : rest2.length < minc := by
          have := hidle
          simp at this
          omega
        by_cases hb3 : broken c2 <;>
          simp [withConnection, getconn, putconn, finallyRelease, PoolWF, hb, hb3, hm2,
            List.erase_cons_head] <;>
          (repeat' apply And.intro) <;>
          first
          | exact hndU
          | exact hnd2
          | exact nodup_snoc hnd2 hc2r
          | exact hku
          | exact hk2
          | (intro x hx hmem; apply hdisj x hx; simp at hmem ⊢; tauto)
          | (intro x hx; have h1 := hdisj x hx; simp at h1; tauto)
          | (intro x hx; simp at hx; rcases hx with hx | hx
             · exact hk2 x hx
             · omega)
          | (intro x hx; rcases hx with hx | hx
             · exact hk2 x hx
             · omega)
          | (cases bodyFails <;> (try simp) <;> omega)
          | omega
    · simp [withConnection, getconn, putconn, finallyRelease, PoolWF, hb, hrl,
        List.erase_cons_head]
      refine ⟨hndU, nodup_snoc hndR hcr, ?_, hku, ?_, ?_, by omega⟩
      · intro x hx
        have h1 := hdisj x hx
        simp at h1
        tauto
      · intro x hx
        rcases hx with hx | hx
        · exact hkr x hx
        · omega
      · cases bodyFails <;> (try simp) <;> omega

instance (st : DBPoolState) : Decidable (PoolWF st) := by
  unfold PoolWF
  infer_instance


theorem C5_scoped_release_witness :
    PoolWF ⟨⟨[5], [9], 10, 1, 20⟩, 1, 0, 0⟩ ∧
    (withConnection (fun _ => false) false ⟨⟨[5], [9], 10, 1, 20⟩, 1, 0, 0⟩).2.pool.used =
      (⟨⟨[5], [9], 10, 1, 20⟩, 1, 0, 0⟩ : DBPoolState).pool.used :=
  ⟨by decide,
    (C5_scoped_release (fun _ => false) false ⟨⟨[5], [9], 10, 1, 20⟩, 1, 0, 0⟩ (by decide)).1⟩

theorem withConnection_ne_exhaustedNone (broken : Nat → Bool) (bodyFails : Bool)
    (st : DBPoolState) :
    (withConnection broken bodyFails st).1 ≠ .error .exhaustedNone := by
  unfold withConnection
  rcases hg : getconn st.pool with ⟨r, p1⟩
  rcases r with e | oc
  · simp
  · rcases oc with _ | c
    · exact absurd hg (getconn_ne_ok_none st.pool p1)
    · by_cases hb : broken c
      · simp only [hb, if_true]
        rcases hp : putconn broken true c p1 with e2 | p2
        · simp
        · dsimp only
          rcases hg2 : getconn p2 with ⟨r2, p3⟩
          rcases r2 with e3 | oc2
          · simp
          · rcases oc2 with _ | c2 <;> cases bodyFails <;> simp
      · cases bodyFails <;> simp [hb]

/-- A pool state with the idle list empty and `maxconn` connections
checked out. -/
def exhaustedSt : DBPoolState := ⟨⟨[], [0, 1], 2, 1, 2⟩, 2, 0, 0⟩

/-- C8 counterexample: on an exhausted pool the acquire does fail
immediately with a `PoolError`, but the `pool_exhausted` counter is not
incremented (it stays `0`; `failed_connections` is incremented
instead), contradicting the claim that exhaustion is visible as an
increment of the `pool_exhausted` counter. -/
theorem C8_exhaustion_counterexample :
    (withConnection (fun _ => false) false exhaustedSt).1 = .error .poolError ∧
    (withConnection (fun _ => false) false exhaustedSt).2.stats.pool_exhausted = 0 ∧
    (withConnection (fun _ => false) false exhaustedSt).2.stats.failed_connections = 1 :=
  ⟨rfl, rfl, rfl⟩

/-- C8 (amended): when the pool has no idle connection and capacity is
exhausted, the acquire fails immediately with the psycopg2 `PoolError`
— a signal distinguishable from generic connectivity failure — leaving
the pool unchanged, incrementing `failed_connections` and leaving
`pool_exhausted` untouched; the source's `pool_exhausted` branch is
unreachable because the pool's `getconn` raises on exhaustion instead
of returning a falsy connection, so no execution ever yields the
exhausted-`None` outcome. -/
theorem C8_exhaustion_amended (broken : Nat → Bool) (bodyFails : Bool) (st : DBPoolState)
    (hidle : st.pool.idle = []) (hcap : st.pool.used.length = st.pool.maxconn) :
    (withConnection broken bodyFails st =
      (.error .poolError,
        ⟨st.pool, { st.stats with
          failed_connections := st.stats.failed_connections + 1 }⟩)) ∧
    (∀ (b2 : Nat → Bool) (bf2 : Bool) (st2 : DBPoolState),
      (withConnection b2 bf2 st2).1 ≠ .error .exhaustedNone) := by
  constructor
  · obtain ⟨⟨idle, used, nk, minc, maxc⟩, act, fc, pe⟩ := st
    dsimp only at hidle hcap
    subst hidle
    simp [withConnection, getconn, finallyRelease, hcap]
  · exact fun b2 bf2 st2 => withConnection_ne_exhaustedNone b2 bf2 st2

theorem C8_exhaustion_amended_witness :
    exhaustedSt.pool.idle = [] ∧
    exhaustedSt.pool.used.length = exhaustedSt.pool.maxconn ∧
    withConnection (fun _ => false) false exhaustedSt =
      (.error .poolError,
        ⟨exhaustedSt.pool, { exhaustedSt.stats with
          failed_connections := exhaustedSt.stats.failed_connections + 1 }⟩) :=
  ⟨rfl, rfl,
    (C8_exhaustion_amended (fun _ => false) false exhaustedSt rfl rfl).1⟩

/-! ## The schema reconciler (`db.py`, `ensure_schema` lines 546-642)

The store's schema is abstracted to which tables exist, which of the
two evolvable `images` columns exist, whether the foreign key on
`images.user_email` exists and with which `ON DELETE` action, and
whether the `statistics` table exists.  The mutating statements a run
executes are collected in order. -/

inductive FKAction where
  | cascade
  | setNull
deriving DecidableEq, Repr

structure Schema where
  users : Bool
  images : Bool
  imagesUserEmail : Bool
  imagesExpiration : Bool
  imagesFk : Option FKAction
  statistics : Bool
deriving DecidableEq, Repr

inductive Stmt where
  | createUsers
  | createImages
  | alterAddUserEmail
  | alterAddFk
  | alterAddExpiration
  | createStatistics
  | insertAdmin
deriving DecidableEq, Repr

/-- `create_table_users` (`db.py` lines 168-209): `CREATE TABLE IF NOT
EXISTS users (...)`. -/
def create_table_users (s : Schema) : Schema × List Stmt :=
  (if s.users then s else { s with users := true }, [Stmt.createUsers])

/-- `create_table_images` (`db.py` lines 114-165): `CREATE TABLE IF NOT
EXISTS images (...)` with both evolvable columns and
`FOREIGN KEY (user_email) REFERENCES users(email) ON DELETE CASCADE`. -/
def create_table_images (s : Schema) : Schema × List Stmt :=
  (if s.images then s
   else { s with images := true, imagesUserEmail := true, imagesExpiration := true,
                 imagesFk := some FKAction.cascade },
   [Stmt.createImages])

/-- `create_table_statistics` (`db.py` lines 645-676). -/
def create_table_statistics (s : Schema) : Schema × List Stmt :=
  (if s.statistics then s else { s with statistics := true }, [Stmt.createStatistics])

/-- `ensure_admin_user` (`db.py` lines 679-738): gated by the
`CREATE_ADMIN_USER` flag; inserts the admin row only when the flag is
set and the admin account is absent. -/
def ensure_admin_user (flag adminMissing : Bool) (s : Schema) : Schema × List Stmt :=
  if !flag then (s, [])
  else if adminMissing then (s, [Stmt.insertAdmin])
  else (s, [])

/-- `ensure_schema` (`db.py` lines 546-642): create `users` if absent;
create `images` if absent, otherwise add the missing `user_email`
column together with its constraint
`FOREIGN KEY (user_email) REFERENCES users(email) ON DELETE SET NULL`
(lines 595-600) and the missing `expiration_date` column; create
`statistics` if absent; finally run the admin-creation step. -/
def ensure_schema (flag adminMissing : Bool) (s : Schema) : Schema × List Stmt :=
  let r1 := if !s.users then create_table_users s else (s, [])
  let s1 := r1.1
  let r2 :=
    if !s1.images then create_table_images s1
    else
      (let ra :=
        if !s1.imagesUserEmail then
          ({ s1 with imagesUserEmail := true, imagesFk := some FKAction.setNull },
            [Stmt.alterAddUserEmail, Stmt.alterAddFk])
        else (s1, [])
       let rb :=
        if !ra.1.imagesExpiration then
          ({ ra.1 with imagesExpiration := true }, [Stmt.alterAddExpiration])
        else (ra.1, [])
       (rb.1, ra.2 ++ rb.2))
  let s2 := r2.1
  let r3 := if !s2.statistics then create_table_statistics s2 else (s2, [])
  let s3 := r3.1
  let r4 := ensure_admin_user flag adminMissing s3
  (r4.1, r1.2 ++ r2.2 ++ r3.2 ++ r4.2)

/-- A schema state is valid when columns exist only on existing tables,
the foreign key exists exactly when its column does, and the column
refers to an existing `users` table — the states reachable from the
empty store, a legacy store, or any reconciler run. -/
def Schema.validB (s : Schema) : Bool :=
  (!s.imagesUserEmail || s.images) &&
  (!s.imagesExpiration || s.images) &&
  (s.imagesFk.isSome == s.imagesUserEmail) &&
  (!s.imagesUserEmail || s.users)

/-- The target schema: all three tables with their full column sets and
the foreign key present. -/
def Schema.isTarget (s : Schema) : Bool :=
  s.users && s.images && s.imagesUserEmail && s.imagesExpiration &&
    s.imagesFk.isSome && s.statistics

def emptySchema : Schema := ⟨false, false, false, false, none, false⟩

/-- A legacy store: the old `images` table exists without the evolvable
columns; nothing else does. -/
def legacySchema : Schema := ⟨false, true, false, false, none, false⟩

/-- C3 counterexample: the empty store and a legacy store are both valid
prior states, but the reconciler does not converge to the same target
schema from them — the fresh creation path installs the foreign key
with `ON DELETE CASCADE` while the ALTER path installs it with
`ON DELETE SET NULL`, so the final constraints differ. -/
theorem C3_convergence_counterexample :
    Schema.validB emptySchema = true ∧ Schema.validB legacySchema = true ∧
    (ensure_schema false true emptySchema).1 ≠ (ensure_schema false true legacySchema).1 := by
  decide

/-- C3 (amended): with the admin-creation flag unset, one reconciler run
from any valid prior state reaches a state with all tables, both
evolvable columns and the foreign key present (and still valid); a
second run is the identity and executes zero mutating statements, so
any number of runs converges after the first; a store already matching
the target is left untouched with zero mutating statements.  The one
divergence from the claim: the `ON DELETE` action of the foreign key
depends on the prior state — `CASCADE` when `images` is created fresh,
`SET NULL` when the column is added by the ALTER path, unchanged when
the column already existed. -/
theorem C3_idempotent_amended (adminMissing : Bool) (s : Schema)
    (hv : s.validB = true) :
    Schema.isTarget (ensure_schema false adminMissing s).1 = true ∧
    Schema.validB (ensure_schema false adminMissing s).1 = true ∧
    ensure_schema false adminMissing (ensure_schema false adminMissing s).1 =
      ((ensure_schema false adminMissing s).1, []) ∧
    (Schema.isTarget s = true → ensure_schema false adminMissing s = (s, [])) ∧
    (ensure_schema false adminMissing s).1.imagesFk =
      (if s.images then (if s.imagesUserEmail then s.imagesFk else some FKAction.setNull)
       else some FKAction.cascade) := by
  rcases s with ⟨u, i, ue, ex, fk, st⟩
  cases fk with
  | none =>
    revert hv
    cases adminMissing <;> cases u <;> cases i <;> cases ue <;> cases ex <;> cases st <;>
      decide
  | some fa =>
    revert hv
    cases fa <;> cases adminMissing <;> cases u <;> cases i <;> cases ue <;> cases ex <;>
      cases st <;> decide

theorem C3_idempotent_amended_witness :
    Schema.validB emptySchema = true ∧
    Schema.isTarget (ensure_schema false true emptySchema).1 = true :=
  ⟨by decide, (C3_idempotent_amended true emptySchema (by decide)).1⟩

/-- The store-level effect of deleting a user on the `images` rows, per
the `ON DELETE` action of the foreign key on `images.user_email` (SQL
semantics of the constraint declared by the source): `CASCADE` deletes
the referencing rows, `SET NULL` clears their `user_email`. -/
def deleteUserImages (fk : FKAction) (email : String) (images : List ImageRow) :
    List ImageRow :=
  match fk with
  | .cascade => images.filter (fun r => !(r.user_email == some email))
  | .setNull => images.map (fun r =>
      if r.user_email == some email then { r with user_email := none } else r)

def ownedRow : ImageRow := ⟨1, "f.png", "o.png", 5, 0, "png", some "a@x.com", none⟩

/-- C6 counterexample: the reconciler's ALTER path produces a schema
whose foreign key is `ON DELETE SET NULL`; in that state deleting the
owner does not delete the owned image row — it survives with its
ownership cleared — so the cascade property fails for a schema state
the reconciler can produce. -/
theorem C6_cascade_counterexample :
    Schema.validB legacySchema = true ∧
    (ensure_schema false true legacySchema).1.imagesFk = some FKAction.setNull ∧
    deleteUserImages FKAction.setNull "a@x.com" [ownedRow] =
      [⟨1, "f.png", "o.png", 5, 0, "png", none, none⟩] ∧
    (deleteUserImages FKAction.setNull "a@x.com" [ownedRow]).length = 1 := by
  decide

/-- C6 (amended): the freshly created `images` table carries
`ON DELETE CASCADE`, under which deleting a user removes exactly that
user's image rows (a row survives iff it was present and not owned by
the deleted user); the ALTER path instead attaches
`ON DELETE SET NULL`, under which no surviving row references the
deleted user either, but every row survives (count preserved) with
ownership cleared rather than being deleted. -/
theorem C6_cascade_amended (email : String) (images : List ImageRow) (s : Schema)
    (hv : s.validB = true) :
    (s.images = false → (ensure_schema false true s).1.imagesFk = some FKAction.cascade) ∧
    (s.images = true → s.imagesUserEmail = false →
      (ensure_schema false true s).1.imagesFk = some FKAction.setNull) ∧
    (∀ r : ImageRow, r ∈ deleteUserImages FKAction.cascade email images ↔
      r ∈ images ∧ ¬r.user_email = some email) ∧
    (∀ r ∈ deleteUserImages FKAction.setNull email images, ¬r.user_email = some email) ∧
    (deleteUserImages FKAction.setNull email images).length = images.length := by
  refine ⟨?_, ?_, ?_, ?_, ?_⟩
  · intro hi
    rcases s with ⟨u, i, ue, ex, fk, st⟩
    revert hv hi
    cases fk with
    | none => cases u <;> cases i <;> cases ue <;> cases ex <;> cases st <;> decide
    | some fa =>
      cases fa <;> cases u <;> cases i <;> cases ue <;> cases ex <;> cases st <;> decide
  · intro hi hue
    rcases s with ⟨u, i, ue, ex, fk, st⟩
    revert hv hi hue
    cases fk with
    | none => cases u <;> cases i <;> cases ue <;> cases ex <;> cases st <;> decide
    | some fa =>
      cases fa <;> cases u <;> cases i <;> cases ue <;> cases ex <;> cases st <;> decide
  · intro r
    simp [deleteUserImages, List.mem_filter]
  · intro r hr
    rcases List.mem_map.mp hr with ⟨x, hx, hfx⟩
    by_cases ho : x.user_email = some email
    · rw [← hfx]
      simp [ho]
    · rw [← hfx]
      simp [ho]
  · simp [deleteUserImages]

theorem C6_cascade_amended_witness :
    Schema.validB legacySchema = true ∧
    (legacySchema.images = true → legacySchema.imagesUserEmail = false →
      (ensure_schema false true legacySchema).1.imagesFk = some FKAction.setNull) :=
  ⟨by decide,
    (C6_cascade_amended "a@x.com" [ownedRow] legacySchema (by decide)).2.1⟩
